import Mathlib

/-!
Verification of the ChibiUI core (file src/chibiui/chibiui.py) against its
natural-language specification.  The Python class `chibiui` is shallowly
embedded: paths, labels and keys are lists of characters, the value store and
the navigation tree are association lists with Python-dict semantics
(first-match lookup, in-place replacement on assignment, append on fresh key),
and statements that raise a Python exception are modelled with an explicit
error component carrying the state as mutated up to the raising statement.

The headless (`nogui=True`) execution path is modelled exactly, including the
places where the source evaluates `tk.Frame(...)` / `self.canvas` although
tkinter was never imported in headless mode (those statements raise
`NameError` / `AttributeError`).  Rendered-mode navigation is modelled
separately on the navigation-relevant projection of the state, with the
renderer treated as the external collaborator the specification describes.
-/

set_option maxRecDepth 4096

namespace ChibiUI

/-- Strings are modelled as lists of characters so that the proofs can reason
structurally about the slash-manipulating functions of the source. -/
abbrev Str := List Char

/-- Conversion from a Lean string literal to the character-list model. -/
def str (s : String) : Str := s.data

/-- Python exceptions that the headless execution path of the source can
actually raise. -/
inductive PyErr where
  | nameError
  | attributeError
deriving DecidableEq, Repr

/-- Widget kinds, one per `widget_type` string used by the source. -/
inductive WType where
  | textbox
  | selector
  | slider
  | checkbox
  | browseFile
  | button
deriving DecidableEq, Repr

/-- A value cell of `self.value`.  In headless mode the source stores the raw
Python value; strings, numbers and booleans cover all widget kinds.  Slider
numerics are modelled as rationals. -/
inductive Val where
  | str : Str → Val
  | num : ℚ → Val
  | bool : Bool → Val
deriving DecidableEq, Repr

/-- One `widget_info` dictionary, as built by the `add_*` methods. -/
inductive WInfo where
  | textbox (label : Str) (value : Str)
  | selector (label : Str) (options : List Str) (value : Str)
  | slider (label : Str) (minVal maxVal step value : ℚ)
  | checkbox (label : Str) (value : Bool)
  | browseFile (label : Str)
  | button (label : Str) (value : Bool)
deriving DecidableEq, Repr

/-- The widget kind recorded in a `widget_info` dictionary. -/
def WInfo.wtype : WInfo → WType
  | .textbox _ _ => .textbox
  | .selector _ _ _ => .selector
  | .slider _ _ _ _ _ => .slider
  | .checkbox _ _ => .checkbox
  | .browseFile _ => .browseFile
  | .button _ _ => .button

/-- The `label` entry of a `widget_info` dictionary. -/
def WInfo.wlabel : WInfo → Str
  | .textbox l _ => l
  | .selector l _ _ => l
  | .slider l _ _ _ _ => l
  | .checkbox l _ => l
  | .browseFile l => l
  | .button l _ => l

/-- One entry of `self.navigation_tree`: the widget list of a node.  The
`frame` component is a rendering handle (always `None` for nodes created
headlessly) and carries no core state, so it is not modelled. -/
structure NodeInfo where
  widgets : List WInfo
deriving DecidableEq, Repr

/-- First-match lookup in an association list, the semantics of a Python dict
read (keys are unique by construction, so first match is the match). -/
def lookupA {α : Type} : List (Str × α) → Str → Option α
  | [], _ => none
  | (k, v) :: t, q => if k = q then some v else lookupA t q

/-- Python's `key in dict`. -/
def containsKey {α : Type} (l : List (Str × α)) (k : Str) : Bool :=
  (lookupA l k).isSome

/-- Replace the value at a present key, keeping dictionary order. -/
def updateA {α : Type} : List (Str × α) → Str → α → List (Str × α)
  | [], _, _ => []
  | (k, v) :: t, q, w => if k = q then (k, w) :: t else (k, v) :: updateA t q w

/-- Python's `dict[key] = value`: in-place replacement when the key is
present, append otherwise. -/
def setA {α : Type} (l : List (Str × α)) (k : Str) (v : α) : List (Str × α) :=
  if containsKey l k then updateA l k v else l ++ [(k, v)]

/-- The mutable attributes of a `chibiui` instance that the headless logic
touches: `self.value`, `self.navigation_tree`, `self.current_path`,
`self.alive`. -/
structure State where
  value : List (Str × Val)
  navigationTree : List (Str × NodeInfo)
  currentPath : Str
  alive : Bool
deriving DecidableEq, Repr

/-- The state right after `chibiui(title, nogui=True)`: empty stores, current
path `/`, `alive` set to true (the GUI thread is not started, so the
navigation tree receives no root entry). -/
def initH : State := ⟨[], [], ['/'], true⟩

/-- Python's `s.split(sep)` for a one-character separator, specialised to
`(slash)`. -/
def pySplit : Str → List Str
  | [] => [[]]
  | c :: t =>
    match pySplit t with
    | [] => [[]]
    | h :: hs => if c = '/' then [] :: h :: hs else (c :: h) :: hs

/-- Python's `s.startswith(sl)` for the slash character. -/
def startsWithSlash : Str → Bool
  | [] => false
  | c :: _ => c = '/'

/-- Python's `s.rstrip(sl)` for the slash character: drop every trailing
slash. -/
def rstripSlash (l : Str) : Str :=
  (l.reverse.dropWhile (fun c => c = '/')).reverse

/-- `_normalize_path` (chibiui.py lines 528-543): prepend a slash when
missing; when the result is not exactly the root path, strip trailing
slashes. -/
def pyNormalize (p : Str) : Str :=
  let p1 := if startsWithSlash p then p else '/' :: p
  if p1 = ['/'] then p1 else rstripSlash p1

/-- `_get_full_key` (lines 515-526). -/
def fullKeyP (path label : Str) : Str :=
  if path = ['/'] then '/' :: label else path ++ '/' :: label

/-- `_parse_label` (lines 545-570): prepend a slash when missing, split on
slashes, drop empty segments; with at least two segments the parent is the
join of all but the last, otherwise the parent is the root. -/
def parseLabel (label : Str) : Str × Str :=
  let lab := if startsWithSlash label then label else '/' :: label
  if lab.contains '/' then
    let parts := (pySplit lab).filter (fun p => !p.isEmpty)
    if 1 < parts.length then
      ('/' :: List.intercalate ['/'] parts.dropLast, parts.getLastD [])
    else
      (['/'], match parts with | [] => lab | p :: _ => p)
  else
    (['/'], lab)

end ChibiUI

namespace ChibiUI

/-- The widget list of the node at `path`, empty when the node is absent. -/
def widsAt (s : State) (path : Str) : List WInfo :=
  match lookupA s.navigationTree path with
  | none => []
  | some n => n.widgets

/-- The duplicate scan of `_add_widget` (lines 272-276): does the node at
`path` already hold a widget with this type and label?  When the node is
absent the scan is skipped, which the empty widget list models. -/
def hasWidget (s : State) (path : Str) (t : WType) (lab : Str) : Bool :=
  (widsAt s path).any (fun w => w.wtype == t && w.wlabel == lab)

/-- Number of widget entries with the given type and label in the node at
`path`. -/
def countWidgets (s : State) (path : Str) (t : WType) (lab : Str) : Nat :=
  ((widsAt s path).filter (fun w => w.wtype == t && w.wlabel == lab)).length

/-- The cumulative prefixes visited by the loops of `_add_navigation` and
`_auto_create_navigation`. -/
def cumPaths : List Str → Str → List Str
  | [], _ => []
  | p :: t, acc => (acc ++ '/' :: p) :: cumPaths t (acc ++ '/' :: p)

/-- All cumulative prefixes of a path, root-down, one per non-empty
segment. -/
def prefixPaths (path : Str) : List Str :=
  cumPaths ((pySplit path).filter (fun p => !p.isEmpty)) []

/-- Result of `_auto_create_navigation` (lines 415-441) in headless mode.  The
root path returns at once.  Otherwise the loop walks the prefixes; in
headless mode `hasattr(self, 'nav_tree')` is false (the attribute is only
created by `create_ui`), and for the first prefix missing from
`navigation_tree` the body evaluates `tk.Frame(self.canvas)` although tkinter
was never imported, raising `NameError` before any mutation.  The state is
therefore unchanged in every case and only the outcome is returned. -/
def autoCreateRes (path : Str) (s : State) : Except PyErr Unit :=
  if path = ['/'] then .ok ()
  else if (prefixPaths path).all (fun q => containsKey s.navigationTree q) then .ok ()
  else .error .nameError

/-- Append a `widget_info` to the node at `path`, creating the node entry
(with no widgets) when absent — the
`if path not in self.navigation_tree: ... ; append` steps shared by all
`add_*` methods. -/
def appendWidget (s : State) (path : Str) (w : WInfo) : State :=
  if containsKey s.navigationTree path then
    { s with navigationTree :=
        updateA s.navigationTree path ⟨(widsAt s path) ++ [w]⟩ }
  else
    { s with navigationTree := s.navigationTree ++ [(path, ⟨[w]⟩)] }

/-- `_add_widget` (lines 257-301) in headless mode, shared by `add_textbox`,
`add_selector` and `add_button`: parse the label, auto-create the navigation
path, return unchanged when a widget with the same type and label already
exists at the path, otherwise append the widget and, only when the full key
is not yet a value-store key, seed the cell with the declared default.  The
final re-render is skipped because `self.nogui` is true. -/
def addWidgetH (t : WType) (mk : Str → WInfo) (d : Val) (label : Str)
    (s : State) : Except PyErr Unit × State :=
  let pa := parseLabel label
  match autoCreateRes pa.1 s with
  | .error e => (.error e, s)
  | .ok _ =>
    if hasWidget s pa.1 t pa.2 then (.ok (), s)
    else
      let s1 := appendWidget s pa.1 (mk pa.2)
      let fk := fullKeyP pa.1 pa.2
      if containsKey s1.value fk then (.ok (), s1)
      else (.ok (), { s1 with value := setA s1.value fk d })

/-- `add_textbox` (lines 303-311) in headless mode. -/
def addTextboxH (label v : Str) (s : State) : Except PyErr Unit × State :=
  addWidgetH .textbox (fun a => .textbox a v) (.str v) label s

/-- `add_selector` (lines 313-322) in headless mode. -/
def addSelectorH (label : Str) (opts : List Str) (v : Str) (s : State) :
    Except PyErr Unit × State :=
  addWidgetH .selector (fun a => .selector a opts v) (.str v) label s

/-- `add_button` (lines 324-332) in headless mode. -/
def addButtonH (label : Str) (v : Bool) (s : State) : Except PyErr Unit × State :=
  addWidgetH .button (fun a => .button a v) (.bool v) label s

/-- `add_slider` (lines 334-364) in headless mode: no duplicate scan, the
widget entry is always appended, and the value cell is assigned
unconditionally (overwriting any existing cell) with the raw, un-snapped
default. -/
def addSliderH (label : Str) (mn mx st v : ℚ) (s : State) :
    Except PyErr Unit × State :=
  let pa := parseLabel label
  match autoCreateRes pa.1 s with
  | .error e => (.error e, s)
  | .ok _ =>
    let s1 := appendWidget s pa.1 (.slider pa.2 mn mx st v)
    (.ok (), { s1 with value := setA s1.value (fullKeyP pa.1 pa.2) (.num v) })

/-- `add_checkbox` (lines 366-390) in headless mode: like `add_slider`, no
duplicate scan and an unconditional cell assignment. -/
def addCheckboxH (label : Str) (v : Bool) (s : State) :
    Except PyErr Unit × State :=
  let pa := parseLabel label
  match autoCreateRes pa.1 s with
  | .error e => (.error e, s)
  | .ok _ =>
    let s1 := appendWidget s pa.1 (.checkbox pa.2 v)
    (.ok (), { s1 with value := setA s1.value (fullKeyP pa.1 pa.2) (.bool v) })

/-- `add_browse_file` (lines 224-255) in headless mode: the widget entry is
appended, then the source evaluates `tk.StringVar(value="")` although tkinter
was never imported, raising `NameError`; the already-appended widget entry
survives, so the error carries the partially mutated state. -/
def addBrowseFileH (label : Str) (s : State) : Except PyErr Unit × State :=
  let pa := parseLabel label
  match autoCreateRes pa.1 s with
  | .error e => (.error e, s)
  | .ok _ =>
    (.error .nameError, appendWidget s pa.1 (.browseFile pa.2))

/-- `get` (lines 443-464) in headless mode: `None` when not alive, otherwise
normalize and look the key up, returning the stored raw value, `None` when
absent. -/
def getH (p : Str) (s : State) : Option Val :=
  if s.alive then lookupA s.value (pyNormalize p) else none

/-- `set` (lines 466-486) in headless mode: no-op when not alive, otherwise
normalize and assign when the key exists; an absent key only prints a
warning. -/
def setH (p : Str) (v : Val) (s : State) : State :=
  if s.alive then
    let q := pyNormalize p
    if containsKey s.value q then { s with value := setA s.value q v } else s
  else s

/-- `navigate_to` (lines 488-512) in headless mode.  There is no `alive`
check.  For a known path the source first assigns `current_path`, skips the
tree-view branch (`hasattr(self, 'nav_tree')` is false in headless mode), and
then calls `_show_content`, which re-normalizes the path and — when it is a
known node — evaluates `self.canvas.find_all()`; the attribute `canvas` is
only created by `create_ui`, so this raises `AttributeError` with
`current_path` already updated.  For an unknown path a warning is printed and
`False` is returned with the state unchanged. -/
def navigateToH (p : Str) (s : State) : Except PyErr Bool × State :=
  let q := pyNormalize p
  if containsKey s.navigationTree q then
    let s1 := { s with currentPath := q }
    if containsKey s1.navigationTree (pyNormalize q) then (.error .attributeError, s1)
    else (.ok true, s1)
  else (.ok false, s)

/-- `close_ui` (lines 29-42) in headless mode: return at once when already
closed, otherwise flip `alive`; `self.root` is `None` headlessly, so the
widget teardown is skipped. -/
def closeH (s : State) : State :=
  if s.alive then { s with alive := false } else s

/-- The navigation-relevant projection of the rendered-mode state: the set of
known `navigation_tree` paths and `current_path`. -/
structure RState where
  navKeys : List Str
  currentPath : Str
deriving DecidableEq, Repr

/-- `navigate_to` (lines 488-512) in rendered mode, on the navigation-relevant
projection: normalize, and when the result is a known node assign
`current_path` and return `True`, otherwise print a warning and return
`False`.  The tree-view selection and the `_show_content` re-render are
renderer effects (spec section 4.5, external collaborator) and touch neither
`current_path`, nor the set of known paths, nor the returned boolean. -/
def navigateToR (p : Str) (s : RState) : Bool × RState :=
  let q := pyNormalize p
  if s.navKeys.contains q then (true, { s with currentPath := q })
  else (false, s)

/-- Python's builtin `round`: round half to even (banker's rounding), exact
on the rational inputs used here. -/
def pythonRound (q : ℚ) : ℤ :=
  let f : ℤ := ⌊q⌋
  if q - f < 1 / 2 then f
  else if 1 / 2 < q - f then f + 1
  else if f % 2 = 0 then f else f + 1

/-- The snapping step of `_create_slider` (lines 608-610, rendered mode
only): when `step > 0`, align the initial value with the step grid via
`round(value / step) * step`. -/
def createSliderSnap (step value : ℚ) : ℚ :=
  if 0 < step then (pythonRound (value / step) : ℚ) * step else value

end ChibiUI

namespace ChibiUI

/-- Decidable equality for `Except` results, needed so that concrete runs of
the model can be settled by `decide`. -/
instance {e a : Type} [DecidableEq e] [DecidableEq a] : DecidableEq (Except e a) :=
  fun x y =>
  match x, y with
  | .ok v, .ok w =>
    if h : v = w then isTrue (congrArg Except.ok h)
    else isFalse (fun hc => h (Except.ok.inj hc))
  | .error v, .error w =>
    if h : v = w then isTrue (congrArg Except.error h)
    else isFalse (fun hc => h (Except.error.inj hc))
  | .ok _, .error _ => isFalse (fun hc => Except.noConfusion hc)
  | .error _, .ok _ => isFalse (fun hc => Except.noConfusion hc)

lemma lookupA_append {α : Type} (l₁ l₂ : List (Str × α)) (k : Str) :
    lookupA (l₁ ++ l₂) k = (lookupA l₁ k).or (lookupA l₂ k) := by
  induction l₁ with
  | nil => simp [lookupA]
  | cons h t ih =>
    obtain ⟨k', v⟩ := h
    by_cases hk : k' = k <;> simp [lookupA, hk, ih]

lemma lookupA_updateA_self {α : Type} (l : List (Str × α)) (k : Str) (v : α) :
    lookupA (updateA l k v) k = (lookupA l k).map (fun _ => v) := by
  induction l with
  | nil => simp [lookupA, updateA]
  | cons h t ih =>
    obtain ⟨k', w⟩ := h
    by_cases hk : k' = k <;> simp [lookupA, updateA, hk, ih]

lemma lookupA_updateA_isSome {α : Type} (l : List (Str × α)) (k q : Str) (v : α) :
    (lookupA (updateA l k v) q).isSome = (lookupA l q).isSome := by
  induction l with
  | nil => simp [updateA]
  | cons h t ih =>
    obtain ⟨k', w⟩ := h
    by_cases hk : k' = k
    · subst hk
      by_cases hq : k' = q
      · subst hq; simp [lookupA, updateA]
      · simp [lookupA, updateA, hq]
    · by_cases hq : k' = q
      · subst hq; simp [lookupA, updateA, hk]
      · simp [lookupA, updateA, hk, hq, ih]

lemma lookupA_eq_none {α : Type} (l : List (Str × α)) (k : Str)
    (h : containsKey l k = false) : lookupA l k = none := by
  unfold containsKey at h
  cases hl : lookupA l k with
  | none => rfl
  | some v => rw [hl] at h; simp at h

lemma lookupA_setA_self {α : Type} (l : List (Str × α)) (k : Str) (v : α) :
    lookupA (setA l k v) k = some v := by
  unfold setA
  by_cases hc : containsKey l k
  · rw [if_pos hc, lookupA_updateA_self]
    unfold containsKey at hc
    cases hl : lookupA l k with
    | none => rw [hl] at hc; simp at hc
    | some w => simp
  · rw [if_neg hc, lookupA_append, lookupA_eq_none l k (by simpa using hc)]
    simp [lookupA]

lemma containsKey_append_left {α : Type} (l₁ l₂ : List (Str × α)) (k : Str)
    (h : containsKey l₁ k = true) : containsKey (l₁ ++ l₂) k = true := by
  unfold containsKey at *
  rw [lookupA_append]
  cases hl : lookupA l₁ k with
  | none => rw [hl] at h; simp at h
  | some v => simp [Option.or]

lemma appendWidget_value (s : State) (p : Str) (w : WInfo) :
    (appendWidget s p w).value = s.value := by
  unfold appendWidget; split <;> rfl

lemma appendWidget_currentPath (s : State) (p : Str) (w : WInfo) :
    (appendWidget s p w).currentPath = s.currentPath := by
  unfold appendWidget; split <;> rfl

lemma appendWidget_alive (s : State) (p : Str) (w : WInfo) :
    (appendWidget s p w).alive = s.alive := by
  unfold appendWidget; split <;> rfl

lemma widsAt_appendWidget_self (s : State) (p : Str) (w : WInfo) :
    widsAt (appendWidget s p w) p = widsAt s p ++ [w] := by
  unfold appendWidget widsAt
  by_cases hc : containsKey s.navigationTree p
  · rw [if_pos hc, lookupA_updateA_self]
    unfold containsKey at hc
    cases hl : lookupA s.navigationTree p with
    | none => rw [hl] at hc; simp at hc
    | some n => simp
  · rw [if_neg hc, lookupA_append, lookupA_eq_none _ _ (by simpa using hc)]
    simp [lookupA]

lemma containsKey_appendWidget_mono (s : State) (p q : Str) (w : WInfo)
    (h : containsKey s.navigationTree q = true) :
    containsKey (appendWidget s p w).navigationTree q = true := by
  unfold appendWidget
  split
  · unfold containsKey at *
    simpa [lookupA_updateA_isSome] using h
  · exact containsKey_append_left _ _ _ h

lemma autoCreateRes_mono (p : Str) (s s' : State)
    (hmono : ∀ q, containsKey s.navigationTree q = true →
      containsKey s'.navigationTree q = true)
    (h : autoCreateRes p s = .ok ()) : autoCreateRes p s' = .ok () := by
  unfold autoCreateRes at *
  by_cases hp : p = ['/']
  · simp [hp]
  · rw [if_neg hp] at h ⊢
    by_cases hall : (prefixPaths p).all (fun q => containsKey s.navigationTree q) = true
    · rw [List.all_eq_true] at hall
      have : (prefixPaths p).all (fun q => containsKey s'.navigationTree q) = true := by
        rw [List.all_eq_true]
        exact fun q hq => hmono q (hall q hq)
      simp [this]
    · rw [if_neg hall] at h
      exact absurd h (by simp)

end ChibiUI

namespace ChibiUI

lemma widsAt_withValue (s : State) (v : List (Str × Val)) (p : Str) :
    widsAt { s with value := v } p = widsAt s p := rfl

lemma addWidgetH_currentPath (t : WType) (mk : Str → WInfo) (d : Val)
    (l : Str) (s : State) :
    ((addWidgetH t mk d l s).2).currentPath = s.currentPath := by
  simp only [addWidgetH]
  split
  · rfl
  · split
    · rfl
    · split <;> simp [appendWidget_currentPath]

lemma addSliderH_currentPath (l : Str) (mn mx st v : ℚ) (s : State) :
    ((addSliderH l mn mx st v s).2).currentPath = s.currentPath := by
  simp only [addSliderH]
  split
  · rfl
  · simp [appendWidget_currentPath]

lemma addCheckboxH_currentPath (l : Str) (v : Bool) (s : State) :
    ((addCheckboxH l v s).2).currentPath = s.currentPath := by
  simp only [addCheckboxH]
  split
  · rfl
  · simp [appendWidget_currentPath]

lemma addBrowseFileH_currentPath (l : Str) (s : State) :
    ((addBrowseFileH l s).2).currentPath = s.currentPath := by
  simp only [addBrowseFileH]
  split
  · rfl
  · simp [appendWidget_currentPath]

/-- Full characterisation of a fresh declaration through `_add_widget`
followed by a re-declaration of the same type and label: the first call
succeeds, leaves exactly one matching widget entry and seeds the cell with
the first default; the second call returns with the state unchanged whatever
widget payload and default it carries. -/
lemma addWidget_spec (t : WType) (mk1 mk2 : Str → WInfo) (d1 d2 : Val)
    (l : Str) (s : State)
    (hT : (mk1 (parseLabel l).2).wtype = t)
    (hL : (mk1 (parseLabel l).2).wlabel = (parseLabel l).2)
    (hauto : autoCreateRes (parseLabel l).1 s = .ok ())
    (hw : hasWidget s (parseLabel l).1 t (parseLabel l).2 = false)
    (hv : containsKey s.value (fullKeyP (parseLabel l).1 (parseLabel l).2) = false) :
    (addWidgetH t mk1 d1 l s).1 = .ok () ∧
    countWidgets (addWidgetH t mk1 d1 l s).2 (parseLabel l).1 t (parseLabel l).2 = 1 ∧
    lookupA ((addWidgetH t mk1 d1 l s).2).value
      (fullKeyP (parseLabel l).1 (parseLabel l).2) = some d1 ∧
    addWidgetH t mk2 d2 l ((addWidgetH t mk1 d1 l s).2) =
      (.ok (), (addWidgetH t mk1 d1 l s).2) := by
  have hstep : addWidgetH t mk1 d1 l s =
      (.ok (), { appendWidget s (parseLabel l).1 (mk1 (parseLabel l).2) with
        value := setA s.value (fullKeyP (parseLabel l).1 (parseLabel l).2) d1 }) := by
    simp only [addWidgetH, hauto]
    rw [if_neg (by simp [hw]), if_neg (by simp [appendWidget_value, hv])]
    simp [appendWidget_value]
  have hwids : widsAt (addWidgetH t mk1 d1 l s).2 (parseLabel l).1 =
      widsAt s (parseLabel l).1 ++ [mk1 (parseLabel l).2] := by
    rw [hstep]
    dsimp only
    rw [widsAt_withValue, widsAt_appendWidget_self]
  have hfilter : (widsAt s (parseLabel l).1).filter
      (fun w => w.wtype == t && w.wlabel == (parseLabel l).2) = [] := by
    rw [List.filter_eq_nil_iff]
    intro a ha
    have := (List.any_eq_false).mp hw a ha
    simpa using this
  have hpred : ((mk1 (parseLabel l).2).wtype == t &&
      (mk1 (parseLabel l).2).wlabel == (parseLabel l).2) = true := by
    simp [hT, hL]
  refine ⟨by rw [hstep], ?_, ?_, ?_⟩
  · unfold countWidgets
    rw [hwids, List.filter_append, hfilter, List.nil_append]
    simp [hpred]
  · rw [hstep]
    dsimp only
    exact lookupA_setA_self _ _ _
  · have hauto2 : autoCreateRes (parseLabel l).1 (addWidgetH t mk1 d1 l s).2 = .ok () := by
      refine autoCreateRes_mono (parseLabel l).1 s _ ?_ hauto
      intro q hq
      rw [hstep]
      dsimp only
      exact containsKey_appendWidget_mono s (parseLabel l).1 q (mk1 (parseLabel l).2) hq
    have hw2 : hasWidget (addWidgetH t mk1 d1 l s).2 (parseLabel l).1 t
        (parseLabel l).2 = true := by
      unfold hasWidget
      rw [hwids, List.any_append]
      simp [hpred]
    generalize hgen : (addWidgetH t mk1 d1 l s).2 = s2 at hauto2 hw2 ⊢
    simp only [addWidgetH, hauto2, hw2, if_true]

end ChibiUI

namespace ChibiUI

lemma dropWhile_idem {α : Type} (p : α → Bool) (l : List α) :
    (l.dropWhile p).dropWhile p = l.dropWhile p := by
  induction l with
  | nil => simp
  | cons c t ih =>
    by_cases h : p c
    · simp [List.dropWhile_cons, h, ih]
    · simp [List.dropWhile_cons, h]

lemma dropWhile_head_false {α : Type} (p : α → Bool) (l : List α) :
    ∀ c t, l.dropWhile p = c :: t → p c = false := by
  induction l with
  | nil => intro c t h; simp at h
  | cons a m ih =>
    intro c t h
    by_cases ha : p a
    · rw [List.dropWhile_cons, if_pos ha] at h
      exact ih c t h
    · rw [List.dropWhile_cons, if_neg ha] at h
      obtain ⟨rfl, rfl⟩ := List.cons.inj h
      simpa using ha

lemma rstripSlash_isPrefix (l : Str) : (rstripSlash l).IsPrefix l := by
  unfold rstripSlash
  refine List.reverse_suffix.mp ?_
  rw [List.reverse_reverse]
  exact List.dropWhile_suffix _

lemma rstripSlash_rstripSlash (l : Str) :
    rstripSlash (rstripSlash l) = rstripSlash l := by
  unfold rstripSlash
  rw [List.reverse_reverse, dropWhile_idem]

lemma prepend_starts (p : Str) :
    startsWithSlash (if startsWithSlash p then p else '/' :: p) = true := by
  by_cases hs : startsWithSlash p
  · rw [if_pos hs]; exact hs
  · rw [if_neg hs]; simp [startsWithSlash]

lemma pyNorm_of_starts (q : Str) (hq : startsWithSlash q = true) :
    pyNormalize q = if q = ['/'] then q else rstripSlash q := by
  simp only [pyNormalize, hq]
  simp

lemma pyNormalize_starts (p : Str) (h : pyNormalize p ≠ []) :
    startsWithSlash (pyNormalize p) = true := by
  have heq : pyNormalize p =
      if (if startsWithSlash p then p else '/' :: p) = ['/']
      then (if startsWithSlash p then p else '/' :: p)
      else rstripSlash (if startsWithSlash p then p else '/' :: p) := rfl
  have hq := prepend_starts p
  by_cases h1 : (if startsWithSlash p then p else '/' :: p) = ['/']
  · rw [heq, if_pos h1, h1]
    simp [startsWithSlash]
  · rw [heq, if_neg h1] at h ⊢
    obtain ⟨c, t, hct⟩ : ∃ c t,
        rstripSlash (if startsWithSlash p then p else '/' :: p) = c :: t := by
      cases hr : rstripSlash (if startsWithSlash p then p else '/' :: p) with
      | nil => exact absurd hr h
      | cons c t => exact ⟨c, t, rfl⟩
    obtain ⟨u, hu⟩ := rstripSlash_isPrefix (if startsWithSlash p then p else '/' :: p)
    rw [hct] at hu ⊢
    cases hp : (if startsWithSlash p then p else '/' :: p) with
    | nil => rw [hp] at hq; simp [startsWithSlash] at hq
    | cons a w =>
      rw [hp] at hu hq
      have hca : c = a := by
        have h2 : c :: (t ++ u) = a :: w := by simpa using hu
        exact (List.cons.inj h2).1
      subst hca
      simpa [startsWithSlash] using hq

/-- After a successful normalization the result is a fixed point: it starts
with a slash and has no trailing slash to strip, so normalizing again changes
nothing; the hypothesis excludes the strings that normalize to the empty
string. -/
lemma pyNormalize_idem (p : Str) (h : pyNormalize p ≠ []) :
    pyNormalize (pyNormalize p) = pyNormalize p := by
  have hsw := pyNormalize_starts p h
  rw [pyNorm_of_starts (pyNormalize p) hsw]
  by_cases hroot : pyNormalize p = ['/']
  · rw [if_pos hroot]
  · rw [if_neg hroot]
    have heq : pyNormalize p =
        if (if startsWithSlash p then p else '/' :: p) = ['/']
        then (if startsWithSlash p then p else '/' :: p)
        else rstripSlash (if startsWithSlash p then p else '/' :: p) := rfl
    by_cases h1 : (if startsWithSlash p then p else '/' :: p) = ['/']
    · exact absurd (by rw [heq, if_pos h1]; exact h1) hroot
    · have h2 : pyNormalize p =
          rstripSlash (if startsWithSlash p then p else '/' :: p) := by
        rw [heq, if_neg h1]
      rw [h2, rstripSlash_rstripSlash]

end ChibiUI

namespace ChibiUI

/-- C3 (counterexample): normalization is not idempotent on the string of two
slashes: it normalizes to the empty string, and the empty string normalizes
to the root path. -/
theorem c3_normalize_counterexample :
    pyNormalize (pyNormalize (str "//")) ≠ pyNormalize (str "//") ∧
    pyNormalize (str "//") = str "" ∧
    pyNormalize (str "") = str "/" := by decide

/-- C3 (amended): normalization — prepend a slash when missing, then strip
trailing slashes unless the result is exactly the root — is idempotent for
every string whose normalization is non-empty, that is, for every string not
consisting solely of two or more slashes. -/
theorem c3_normalize_idempotent (p : Str) (h : pyNormalize p ≠ []) :
    pyNormalize (pyNormalize p) = pyNormalize p :=
  pyNormalize_idem p h

/-- Witness for C3 at a concrete input with a trailing slash. -/
theorem c3_normalize_idempotent_witness :
    pyNormalize (pyNormalize (str "a//")) = pyNormalize (str "a//") :=
  c3_normalize_idempotent (str "a//") (by decide)

/-- C7: the full key is the parent path, a slash and the label, except under
the root where the key is the slash and the label; in particular the key of
label X under the root is /X and not //X. -/
theorem c7_full_key (p l : Str) :
    (p ≠ ['/'] → fullKeyP p l = p ++ '/' :: l) ∧
    (p = ['/'] → fullKeyP p l = '/' :: l) ∧
    fullKeyP (str "/") (str "X") = str "/X" ∧
    fullKeyP (str "/") (str "X") ≠ str "//X" := by
  refine ⟨fun hp => by rw [fullKeyP, if_neg hp],
    fun hp => by rw [fullKeyP, if_pos hp], by decide, by decide⟩

/-- Witness for C7 at a non-root and at the root parent path. -/
theorem c7_full_key_witness :
    fullKeyP (str "/a") (str "X") = str "/a" ++ '/' :: str "X" ∧
    fullKeyP (str "/") (str "X") = '/' :: str "X" :=
  ⟨(c7_full_key (str "/a") (str "X")).1 (by decide),
   ((c7_full_key (str "/") (str "X")).2).1 (by decide)⟩

/-- C8: for a label without a leading slash, parsing the label and parsing
the slash-prepended label produce the same full key (the parser itself
prepends the missing slash first). -/
theorem c8_round_trip (L : Str) (h : startsWithSlash L = false) :
    fullKeyP (parseLabel L).1 (parseLabel L).2 =
    fullKeyP (parseLabel ('/' :: L)).1 (parseLabel ('/' :: L)).2 := by
  have hp : parseLabel L = parseLabel ('/' :: L) := by
    simp only [parseLabel, h]
    simp [startsWithSlash]
  rw [hp]

/-- Witness for C8 at a compound label. -/
theorem c8_round_trip_witness :
    fullKeyP (parseLabel (str "Person/Name")).1 (parseLabel (str "Person/Name")).2 =
    fullKeyP (parseLabel ('/' :: str "Person/Name")).1
      (parseLabel ('/' :: str "Person/Name")).2 :=
  c8_round_trip (str "Person/Name") (by decide)

end ChibiUI

namespace ChibiUI

/-- C2 (failing run): in headless construction the scenario's first step,
adding a textbox at the nested label Person/Name, raises NameError — 
`_auto_create_navigation` evaluates `tk.Frame(self.canvas)` for the missing
node /Person although tkinter was never imported in headless mode — leaving
the state unchanged, so the end-to-end headless scenario cannot proceed. -/
theorem c2_headless_scenario_raises :
    addTextboxH (str "Person/Name") (str "John") initH =
      (.error .nameError, initH) := by decide

/-- C10: the empty label parses to parent / and leaf /, its declaration
succeeds without any error, the cell is stored under the double-slash key,
yet `get` of that key normalizes it to the empty string and returns the
NotFound sentinel, so the cell is unreachable through `get`. -/
theorem c10_empty_label :
    parseLabel (str "") = (str "/", str "/") ∧
    (addTextboxH (str "") (str "v") initH).1 = .ok () ∧
    lookupA ((addTextboxH (str "") (str "v") initH).2).value (str "//") =
      some (.str (str "v")) ∧
    pyNormalize (str "//") = str "" ∧
    getH (str "//") ((addTextboxH (str "") (str "v") initH).2) = none := by decide

/-- C9: no add call changes the current path — for every headless state and
all arguments, each of the six declaration operations leaves
`current_path` exactly as it was. -/
theorem c9_add_preserves_current_path (s : State) (l v : Str)
    (opts : List Str) (b : Bool) (mn mx st q : ℚ) :
    ((addTextboxH l v s).2).currentPath = s.currentPath ∧
    ((addSelectorH l opts v s).2).currentPath = s.currentPath ∧
    ((addSliderH l mn mx st q s).2).currentPath = s.currentPath ∧
    ((addCheckboxH l b s).2).currentPath = s.currentPath ∧
    ((addBrowseFileH l s).2).currentPath = s.currentPath ∧
    ((addButtonH l b s).2).currentPath = s.currentPath :=
  ⟨addWidgetH_currentPath _ _ _ _ _, addWidgetH_currentPath _ _ _ _ _,
   addSliderH_currentPath _ _ _ _ _ _, addCheckboxH_currentPath _ _ _,
   addBrowseFileH_currentPath _ _, addWidgetH_currentPath _ _ _ _ _⟩

/-- C6: rendered-mode navigation — when the normalized path is a known node,
`navigate_to` sets the current path to it and returns true; otherwise it
returns false and leaves the whole navigation state unchanged. -/
theorem c6_navigate_to (p : Str) (s : RState) :
    (s.navKeys.contains (pyNormalize p) = true →
      navigateToR p s = (true, ⟨s.navKeys, pyNormalize p⟩)) ∧
    (s.navKeys.contains (pyNormalize p) = false →
      navigateToR p s = (false, s)) := by
  constructor
  · intro h
    simp only [navigateToR]
    rw [if_pos h]
  · intro h
    simp only [navigateToR]
    rw [if_neg (by rw [h]; exact Bool.false_ne_true)]

/-- Witness for C6: a known and an unknown target from a concrete state. -/
theorem c6_navigate_to_witness :
    navigateToR (str "/") ⟨[str "/"], str "/Person"⟩ = (true, ⟨[str "/"], str "/"⟩) ∧
    navigateToR (str "/Nope") ⟨[str "/"], str "/"⟩ = (false, ⟨[str "/"], str "/"⟩) :=
  ⟨(c6_navigate_to (str "/") ⟨[str "/"], str "/Person"⟩).1 (by decide),
   (c6_navigate_to (str "/Nope") ⟨[str "/"], str "/"⟩).2 (by decide)⟩

/-- C4 (counterexample): after shutdown, navigating to the known root node of
this concrete headless session raises AttributeError instead of being a
no-op returning a sentinel failure — `navigate_to` performs no alive
check. -/
theorem c4_counterexample :
    (closeH ((addTextboxH (str "T") (str "v") initH).2)).alive = false ∧
    (navigateToH (str "/") (closeH ((addTextboxH (str "T") (str "v") initH).2))).1 =
      .error .attributeError := by decide

/-- C4 (amended): after shutdown, `get` returns the NotFound sentinel and
`set` leaves the store unchanged, but `navigate_to` has no alive check: only
for paths missing from the navigation tree does it report failure with the
state unchanged (for known paths it proceeds as when alive). -/
theorem c4_shutdown (s : State) (p : Str) (v : Val) (h : s.alive = false) :
    getH p s = none ∧
    setH p v s = s ∧
    (containsKey s.navigationTree (pyNormalize p) = false →
      navigateToH p s = (.ok false, s)) := by
  refine ⟨?_, ?_, ?_⟩
  · simp [getH, h]
  · simp [setH, h]
  · intro hn
    simp only [navigateToH]
    rw [if_neg (by simp [hn])]

/-- Witness for C4 at a concrete closed session. -/
theorem c4_shutdown_witness :
    getH (str "/x") (closeH initH) = none ∧
    setH (str "/x") (.bool true) (closeH initH) = closeH initH ∧
    navigateToH (str "/x") (closeH initH) = (.ok false, closeH initH) :=
  have h := c4_shutdown (closeH initH) (str "/x") (.bool true) (by decide)
  ⟨h.1, h.2.1, h.2.2 (by decide)⟩

/-- C1 (counterexample): declaring the same checkbox twice with different
defaults leaves two widget entries for (checkbox, X) and the cell holds the
second call's default — checkbox declaration has no duplicate suppression
and overwrites the cell. -/
theorem c1_counterexample :
    countWidgets ((addCheckboxH (str "X") false
        ((addCheckboxH (str "X") true initH).2)).2)
      (str "/") .checkbox (str "X") = 2 ∧
    lookupA ((addCheckboxH (str "X") false
        ((addCheckboxH (str "X") true initH).2)).2).value
      (str "/X") = some (.bool false) := by decide

/-- C1 (amended): for the kinds routed through `_add_widget` — textbox,
selector and button — a fresh declaration succeeds, leaves exactly one
matching widget entry and seeds the cell with the first default, and a
re-declaration with the same type and label is a no-op returning the state
unchanged, whatever its default (and options) are. -/
theorem c1_declare_idempotent (s : State) (l : Str) :
    (∀ v1 v2 : Str,
      autoCreateRes (parseLabel l).1 s = .ok () →
      hasWidget s (parseLabel l).1 .textbox (parseLabel l).2 = false →
      containsKey s.value (fullKeyP (parseLabel l).1 (parseLabel l).2) = false →
      (addTextboxH l v1 s).1 = .ok () ∧
      countWidgets (addTextboxH l v1 s).2 (parseLabel l).1 .textbox (parseLabel l).2 = 1 ∧
      lookupA ((addTextboxH l v1 s).2).value
        (fullKeyP (parseLabel l).1 (parseLabel l).2) = some (.str v1) ∧
      addTextboxH l v2 ((addTextboxH l v1 s).2) = (.ok (), (addTextboxH l v1 s).2)) ∧
    (∀ (o1 : List Str) (v1 : Str) (o2 : List Str) (v2 : Str),
      autoCreateRes (parseLabel l).1 s = .ok () →
      hasWidget s (parseLabel l).1 .selector (parseLabel l).2 = false →
      containsKey s.value (fullKeyP (parseLabel l).1 (parseLabel l).2) = false →
      (addSelectorH l o1 v1 s).1 = .ok () ∧
      countWidgets (addSelectorH l o1 v1 s).2 (parseLabel l).1 .selector (parseLabel l).2 = 1 ∧
      lookupA ((addSelectorH l o1 v1 s).2).value
        (fullKeyP (parseLabel l).1 (parseLabel l).2) = some (.str v1) ∧
      addSelectorH l o2 v2 ((addSelectorH l o1 v1 s).2) =
        (.ok (), (addSelectorH l o1 v1 s).2)) ∧
    (∀ b1 b2 : Bool,
      autoCreateRes (parseLabel l).1 s = .ok () →
      hasWidget s (parseLabel l).1 .button (parseLabel l).2 = false →
      containsKey s.value (fullKeyP (parseLabel l).1 (parseLabel l).2) = false →
      (addButtonH l b1 s).1 = .ok () ∧
      countWidgets (addButtonH l b1 s).2 (parseLabel l).1 .button (parseLabel l).2 = 1 ∧
      lookupA ((addButtonH l b1 s).2).value
        (fullKeyP (parseLabel l).1 (parseLabel l).2) = some (.bool b1) ∧
      addButtonH l b2 ((addButtonH l b1 s).2) = (.ok (), (addButtonH l b1 s).2)) := by
  refine ⟨?_, ?_, ?_⟩
  · intro v1 v2 hauto hw hv
    exact addWidget_spec .textbox (fun a => .textbox a v1) (fun a => .textbox a v2)
      (.str v1) (.str v2) l s rfl rfl hauto hw hv
  · intro o1 v1 o2 v2 hauto hw hv
    exact addWidget_spec .selector (fun a => .selector a o1 v1) (fun a => .selector a o2 v2)
      (.str v1) (.str v2) l s rfl rfl hauto hw hv
  · intro b1 b2 hauto hw hv
    exact addWidget_spec .button (fun a => .button a b1) (fun a => .button a b2)
      (.bool b1) (.bool b2) l s rfl rfl hauto hw hv

/-- Witness for C1: a concrete fresh textbox declaration whose
re-declaration with a different default is a no-op. -/
theorem c1_declare_idempotent_witness :
    addTextboxH (str "A") (str "y") ((addTextboxH (str "A") (str "x") initH).2) =
      (.ok (), (addTextboxH (str "A") (str "x") initH).2) :=
  ((c1_declare_idempotent initH (str "A")).1 (str "x") (str "y")
    (by decide) (by decide) (by decide)).2.2.2

/-- C5 (counterexample): in headless mode the slider's live value is stored
raw — after addSlider S 0 10 3 4, `get` of /S returns 4, not the snapped
3 that the claim promises for headless mode as well. -/
theorem c5_counterexample :
    getH (str "/S") ((addSliderH (str "S") 0 10 3 4 initH).2) = some (.num 4) ∧
    getH (str "/S") ((addSliderH (str "S") 0 10 3 4 initH).2) ≠ some (.num 3) := by
  decide

/-- C5 (amended): headless declaration stores the raw slider default
un-snapped (so `get` sees the raw value), while the rendered-mode snapping
step of `_create_slider` rounds once at creation: for step 3 and value 4 it
yields 3. -/
theorem c5_slider_snap :
    (∀ (l : Str) (mn mx st v : ℚ) (s s' : State),
      addSliderH l mn mx st v s = (.ok (), s') →
      lookupA s'.value (fullKeyP (parseLabel l).1 (parseLabel l).2) =
        some (.num v)) ∧
    createSliderSnap 3 4 = 3 := by
  constructor
  · intro l mn mx st v s s' h
    simp only [addSliderH] at h
    cases hres : autoCreateRes (parseLabel l).1 s with
    | error e => rw [hres] at h; simp at h
    | ok u =>
      rw [hres] at h
      have h2 := congrArg Prod.snd h
      dsimp only at h2
      rw [← h2]
      dsimp only
      rw [appendWidget_value]
      exact lookupA_setA_self _ _ _
  · have hf : ⌊(4 : ℚ) / 3⌋ = 1 := by norm_num
    simp only [createSliderSnap, pythonRound, hf]
    norm_num

/-- Witness for C5: the concrete headless slider run of the counterexample
satisfies the amended description. -/
theorem c5_slider_snap_witness :
    lookupA ((addSliderH (str "S") 0 10 3 4 initH).2).value
      (fullKeyP (parseLabel (str "S")).1 (parseLabel (str "S")).2) =
      some (.num 4) :=
  c5_slider_snap.1 (str "S") 0 10 3 4 initH
    ((addSliderH (str "S") 0 10 3 4 initH).2) (by decide)

end ChibiUI
